import Mathlib

/-!
Verification development for the goal-progress synchronization core of the
goodhealth fitness backend: the `UnitConverter` helper
(`backend/app/utils/unit_converter.py`), the per-unit sync strategies and the
`GoalSyncService` orchestrator (`backend/app/services/goal_sync.py`).

Python numeric values (floats and ints flowing through the sync engine) are
modelled as exact rationals.  To keep every computation reducible by the
kernel (so that concrete runs can be settled by `decide`), we use a dedicated
normalized-fraction type `PyRat` built directly on `Int`/`Nat` arithmetic
instead of Mathlib's `ℚ` (whose operations are `irreducible`).
-/

instance {ε α : Type} [DecidableEq ε] [DecidableEq α] : DecidableEq (Except ε α) := fun x y =>
  match x, y with
  | .ok a, .ok b =>
    if h : a = b then .isTrue (by rw [h]) else .isFalse (fun hc => h (by cases hc; rfl))
  | .error a, .error b =>
    if h : a = b then .isTrue (by rw [h]) else .isFalse (fun hc => h (by cases hc; rfl))
  | .ok _, .error _ => .isFalse (fun hc => Except.noConfusion hc)
  | .error _, .ok _ => .isFalse (fun hc => Except.noConfusion hc)

/-- An exact rational modelling a Python numeric value.  Values produced by
the smart constructor `mkQ` and the arithmetic below are always normalized:
`den > 0` and `gcd (num.natAbs) den = 1`, so structural equality of computed
values coincides with numeric equality. -/
structure PyRat where
  num : ℤ
  den : ℤ
deriving DecidableEq, Repr

/-- Smart constructor: normalize the fraction `n / d` (positive denominator,
coprime).  `d = 0` never arises from the modelled code. -/
def mkQ (n d : ℤ) : PyRat :=
  if d = 0 then ⟨0, 1⟩
  else
    let n' := if d < 0 then -n else n
    let d' := if d < 0 then -d else d
    let g : ℤ := (Int.gcd n' d' : ℤ)
    if g = 0 then ⟨0, 1⟩ else ⟨n' / g, d' / g⟩

def PyRat.ofInt (n : ℤ) : PyRat := ⟨n, 1⟩

def PyRat.ofNat (n : ℕ) : PyRat := ⟨(n : ℤ), 1⟩

instance (n : ℕ) : OfNat PyRat n := ⟨PyRat.ofNat n⟩

/-- Python `+` on numbers. -/
def qadd (a b : PyRat) : PyRat := mkQ (a.num * b.den + b.num * a.den) (a.den * b.den)

/-- Python `-` on numbers. -/
def qsub (a b : PyRat) : PyRat := mkQ (a.num * b.den - b.num * a.den) (a.den * b.den)

/-- Python `*` on numbers. -/
def qmul (a b : PyRat) : PyRat := mkQ (a.num * b.num) (a.den * b.den)

/-- Python `<=` on numbers (denominators are positive for well-formed values). -/
def qle (a b : PyRat) : Bool := decide (a.num * b.den ≤ b.num * a.den)

/-- Python `<` on numbers. -/
def qlt (a b : PyRat) : Bool := decide (a.num * b.den < b.num * a.den)

/-- Python `==` on numbers (value equality, robust to non-normalized inputs). -/
def qeq (a b : PyRat) : Bool := decide (a.num * b.den = b.num * a.den)

/-- Python `max(a, b)`: returns `a` when `a >= b`, mirroring argument order. -/
def qmax (a b : PyRat) : PyRat := if qle b a then a else b

/-- Floor of a `PyRat` (denominator positive for well-formed values). -/
def qfloor (a : PyRat) : ℤ := Int.fdiv a.num a.den

/-- Python `round(x, 1)`: scale by 10, round half to even, scale back. -/
def pyRound1 (q : PyRat) : PyRat :=
  let s := qmul q (PyRat.ofNat 10)
  let f : ℤ := qfloor s
  let r := qsub s (PyRat.ofInt f)
  let half : PyRat := ⟨1, 2⟩
  let n : ℤ :=
    if qlt r half then f
    else if qlt half r then f + 1
    else if f % 2 = 0 then f else f + 1
  mkQ n 10

/-! ## Strings

Python string primitives used by the sync engine, modelled over `List Char`
(the modelled data is ASCII, and `str.lower`/`\w`/whitespace are modelled in
their ASCII behaviour). -/

/-- Python `str.lower` on a single ASCII character. -/
def lowerChar (c : Char) : Char :=
  if 'A' ≤ c ∧ c ≤ 'Z' then Char.ofNat (c.toNat + 32) else c

/-- Python `str.lower`. -/
def lowerStr (s : String) : String := ⟨s.data.map lowerChar⟩

/-- A regex word character (`\w`): letter, digit or underscore. -/
def isWordChar (c : Char) : Bool := c.isAlpha || c.isDigit || c = '_'

/-- Case-insensitive prefix test. -/
def startsWithCI : List Char → List Char → Bool
  | [], _ => true
  | _ :: _, [] => false
  | a :: as, b :: bs => lowerChar a = lowerChar b && startsWithCI as bs

/-- Case-insensitive substring test on character lists. -/
def containsCIList (needle : List Char) : List Char → Bool
  | [] => startsWithCI needle []
  | c :: rest => startsWithCI needle (c :: rest) || containsCIList needle rest

/-- Case-insensitive substring test: does `hay` contain `needle`?
Models both `re.search` of a literal alternative with `re.IGNORECASE` and the
SQL `ilike '%needle%'` filter. -/
def containsCI (needle hay : String) : Bool := containsCIList needle.data hay.data

/-- Case-insensitively match `w` as a prefix of `l`, returning the remainder. -/
def matchWordCI : List Char → List Char → Option (List Char)
  | [], rest => some rest
  | _ :: _, [] => none
  | a :: as, b :: bs => if lowerChar a = lowerChar b then matchWordCI as bs else none

/-- After a matched `\d+`, consume an optional `\.\d+` fractional part. -/
def skipFrac : List Char → List Char
  | '.' :: c :: rest =>
      if c.isDigit then rest.dropWhile Char.isDigit else '.' :: c :: rest
  | l => l

/-- `re.sub(r"\d+(\.\d+)?", "", ·)`: left-to-right scan deleting each maximal
digit run together with an optional fractional part.  The fuel argument is
initialized with the list length, which bounds the number of steps since every
step consumes at least one character. -/
def stripNumbersAux : ℕ → List Char → List Char
  | 0, _ => []
  | _ + 1, [] => []
  | fuel + 1, c :: rest =>
    if c.isDigit then stripNumbersAux fuel (skipFrac (rest.dropWhile Char.isDigit))
    else c :: stripNumbersAux fuel rest

def stripNumbers (l : List Char) : List Char := stripNumbersAux l.length l

/-- The unit-word alternatives of the title-cleaning regex. -/
def unitWords : List (List Char) :=
  ["kg".data, "lbs".data, "km".data, "miles".data, "reps".data,
   "minutes".data, "days".data, "workouts".data]

/-- Try to match one of `unitWords` at the head of `l` (case-insensitively)
followed by a word boundary; return the remainder on success. -/
def tryUnitWords (l : List Char) : Option (List Char) :=
  unitWords.foldl
    (fun acc w =>
      match acc with
      | some r => some r
      | none =>
        match matchWordCI w l with
        | some rest =>
          match rest with
          | [] => some rest
          | c :: _ => if isWordChar c then none else some rest
        | none => none)
    none

/-- `re.sub(r"\b(kg|lbs|km|miles|reps|minutes|days|workouts)\b", "", ·,
flags=re.IGNORECASE)`: scan keeping track of whether the previous character
was a word character (for the leading `\b`); the trailing `\b` is checked by
`tryUnitWords`.  Fuel as in `stripNumbersAux`. -/
def stripUnitsAux : ℕ → Bool → List Char → List Char
  | 0, _, _ => []
  | _ + 1, _, [] => []
  | fuel + 1, prevWord, c :: rest =>
    if prevWord then c :: stripUnitsAux fuel (isWordChar c) rest
    else
      match tryUnitWords (c :: rest) with
      | some rest' => stripUnitsAux fuel true rest'
      | none => c :: stripUnitsAux fuel (isWordChar c) rest

def stripUnits (l : List Char) : List Char := stripUnitsAux l.length false l

/-- Python `str.strip()`. -/
def trimChars (l : List Char) : List Char :=
  ((l.dropWhile Char.isWhitespace).reverse.dropWhile Char.isWhitespace).reverse

/-! ## UnitConverter (`app/utils/unit_converter.py`)

Fallible code is modelled with `Except`: `.error` is a raised `ValueError`. -/

namespace UnitConverter

def KG_TO_LBS : PyRat := mkQ 220462 100000

def LBS_TO_KG : PyRat := mkQ 453592 1000000

def KM_TO_MILES : PyRat := mkQ 621371 1000000

def MILES_TO_KM : PyRat := mkQ 160934 100000

/-- `UnitConverter.convert_weight`. -/
def convert_weight (value : PyRat) (from_unit to_unit : String) : Except String PyRat :=
  let fu := lowerStr from_unit
  let tu := lowerStr to_unit
  if fu = tu then .ok value
  else if fu = "kg" ∧ tu = "lbs" then .ok (pyRound1 (qmul value KG_TO_LBS))
  else if fu = "lbs" ∧ tu = "kg" then .ok (pyRound1 (qmul value LBS_TO_KG))
  else .error ("Cannot convert weight from " ++ fu ++ " to " ++ tu)

/-- `UnitConverter.convert_distance`. -/
def convert_distance (value : PyRat) (from_unit to_unit : String) : Except String PyRat :=
  let fu := lowerStr from_unit
  let tu := lowerStr to_unit
  if fu = tu then .ok value
  else if fu = "km" ∧ tu = "miles" then .ok (pyRound1 (qmul value KM_TO_MILES))
  else if fu = "miles" ∧ tu = "km" then .ok (pyRound1 (qmul value MILES_TO_KM))
  else .error ("Cannot convert distance from " ++ fu ++ " to " ++ tu)

end UnitConverter

/-! ## Data model (rows as returned by the relational store)

Optional / nullable columns are `Option`; a missing key in the returned dict
behaves like `None` through `.get`, so both are one `none`.  Soft deletion
(`deleted_at`) only ever enters the modelled queries through the
`is_("deleted_at", "null")` filter, so it is modelled as a Boolean. -/

structure WorkoutRow where
  id : String
  user_id : String
  date : Option String
  duration_minutes : Option PyRat
  deleted : Bool
deriving DecidableEq, Repr

structure ExerciseRow where
  workout_id : Option String
  name : String
  weight : Option PyRat
  weight_unit : Option String
  reps : Option PyRat
  distance : Option PyRat
  distance_unit : Option String
deriving DecidableEq, Repr

structure MeasurementRow where
  user_id : String
  weight : Option PyRat
  weight_unit : Option String
  measured_at : ℤ
  deleted : Bool
deriving DecidableEq, Repr

/-- A goal row (`Goal` model, matching the database schema). -/
structure GoalRow where
  id : String
  user_id : String
  title : String
  description : Option String
  initial_value : PyRat
  current_value : Option PyRat
  target_value : PyRat
  unit : String
  target_date : Option String
  achieved : Bool
  status : String
  created_at : String
  updated_at : String
  deleted : Bool
deriving DecidableEq, Repr

/-- The backing store together with per-table data-access failure flags: a
`true` flag makes every query issued against that table (or the goal-row
update) raise, modelling a transient store failure. -/
structure Store where
  workouts : List WorkoutRow
  exercises : List ExerciseRow
  measurements : List MeasurementRow
  goals : List GoalRow
  workouts_fail : Bool
  exercises_fail : Bool
  measurements_fail : Bool
  goals_fail : Bool
  update_fail : Bool
deriving DecidableEq, Repr

/-- Python `d.get(key, default) or default` for string columns: `None` and the
empty string both fall back to the default. -/
def strOr (o : Option String) (d : String) : String :=
  match o with
  | none => d
  | some s => if s = "" then d else s

/-- Python truthiness filter on an optional string (`if e.get(key)`). -/
def truthyStr : Option String → Option String
  | none => none
  | some s => if s = "" then none else some s

example : UnitConverter.convert_weight 10 "kg" "lbs" = .ok (mkQ 22 1) := by decide
example : UnitConverter.convert_weight 22 "lbs" "kg" = .ok (mkQ 10 1) := by decide
example : UnitConverter.convert_distance 10 "km" "miles" = .ok (mkQ 62 10) := by decide
example : UnitConverter.convert_distance 10 "miles" "km" = .ok (mkQ 161 10) := by decide
example : containsCI "Bench press" "Bench Press" = true := by decide
example : trimChars (stripUnits (stripNumbers "Bench press 100kg".data)) = "Bench press".data := by decide

/-! ## Sync strategies (`app/services/goal_sync.py`)

Each `calculate` returns `Except String (Option PyRat)`: `.error` models a
raised exception (data-access failure or a `ValueError` escaping from
`UnitConverter`), `.ok none` models returning `None` (not computable). -/

/-- Shared helper `_extract_exercise_name` (identical in `WeightStrategy`,
`MaxRepsStrategy` and `DistanceStrategy`): strip numbers and unit words from
the goal title, trim; an empty result is `None`. -/
def extract_exercise_name (title : String) : Option String :=
  let cleaned := trimChars (stripUnits (stripNumbers title.data))
  if cleaned.isEmpty then none else some ⟨cleaned⟩

/-- `WeightStrategy._is_body_weight_goal`: `re.search(r"weight|body|lose|gain",
title, re.IGNORECASE)`. -/
def is_body_weight_goal (title : String) : Bool :=
  containsCI "weight" title || containsCI "body" title ||
  containsCI "lose" title || containsCI "gain" title

/-- `workouts` table query used by the count/duration/days strategies:
`user_id` equality plus the `deleted_at is null` filter. -/
def queryWorkouts (s : Store) (uid : String) : Except String (List WorkoutRow) :=
  if s.workouts_fail then .error "workouts query failed"
  else .ok (s.workouts.filter fun w => w.user_id = uid ∧ w.deleted = false)

/-- `WorkoutCountStrategy.calculate`: `len(response.data) if response.data
else 0` (the count either way). -/
def workoutCountCalculate (s : Store) (uid : String) : Except String (Option PyRat) :=
  match queryWorkouts s uid with
  | .error msg => .error msg
  | .ok rows => .ok (some (PyRat.ofNat rows.length))

/-- `DurationStrategy.calculate`: sum of `duration_minutes`, a null (or
missing) duration contributing 0. -/
def durationCalculate (s : Store) (uid : String) : Except String (Option PyRat) :=
  match queryWorkouts s uid with
  | .error msg => .error msg
  | .ok rows =>
    if rows.isEmpty then .ok (some 0)
    else .ok (some (rows.foldl (fun acc w => qadd acc (w.duration_minutes.getD 0)) 0))

/-- `UniqueDaysStrategy.calculate`: cardinality of the set of truthy `date`
values. -/
def uniqueDaysCalculate (s : Store) (uid : String) : Except String (Option PyRat) :=
  match queryWorkouts s uid with
  | .error msg => .error msg
  | .ok rows =>
    if rows.isEmpty then .ok (some 0)
    else .ok (some (PyRat.ofNat ((rows.filterMap fun w => truthyStr w.date).dedup.length)))

/-- The `workouts` query issued inside the exercise-based strategies:
`user_id` equality, `id in workout_ids`, `deleted_at is null`. -/
def queryUserWorkoutsIn (s : Store) (uid : String) (ids : List String) :
    Except String (List WorkoutRow) :=
  if s.workouts_fail then .error "workouts query failed"
  else .ok (s.workouts.filter fun w => w.user_id = uid ∧ w.id ∈ ids ∧ w.deleted = false)

/-- The query/ownership-filter pipeline shared verbatim by the three
exercise-based strategies: query exercises matching `q`; bail out with `None`
when the result, the truthy `workout_id` projection, or the user's matching
non-deleted workouts are empty; otherwise hand the valid workout ids and the
exercise rows to the strategy-specific aggregation `post`. -/
def exercisePipeline (s : Store) (uid : String) (q : ExerciseRow → Bool)
    (post : List String → List ExerciseRow → Except String (Option PyRat)) :
    Except String (Option PyRat) :=
  if s.exercises_fail then .error "exercises query failed"
  else
    let rows := s.exercises.filter q
    if rows = [] then .ok none
    else
      let workout_ids := rows.filterMap fun e => truthyStr e.workout_id
      if workout_ids = [] then .ok none
      else
        match queryUserWorkoutsIn s uid workout_ids with
        | .error msg => .error msg
        | .ok userWorkouts =>
          if userWorkouts = [] then .ok none
          else post (userWorkouts.map fun w => w.id) rows

/-- The `for exercise in response.data` loop of
`WeightStrategy._get_exercise_max_weight`: skip exercises whose `workout_id`
is not among the valid ids, default a null weight/unit, convert when the unit
differs from the target (a conversion error escapes), and accumulate the max. -/
def maxWeightLoop (tu : String) (valid : List String) :
    List ExerciseRow → PyRat → Except String PyRat
  | [], acc => .ok acc
  | e :: rest, acc =>
    match e.workout_id with
    | none => maxWeightLoop tu valid rest acc
    | some wid =>
      if wid ∈ valid then
        let w0 := e.weight.getD 0
        let wu := strOr e.weight_unit "kg"
        if lowerStr wu ≠ tu then
          match UnitConverter.convert_weight w0 wu tu with
          | .error msg => .error msg
          | .ok w => maxWeightLoop tu valid rest (qmax acc w)
        else maxWeightLoop tu valid rest (qmax acc w0)
      else maxWeightLoop tu valid rest acc

/-- `WeightStrategy._get_exercise_max_weight`. -/
def getExerciseMaxWeight (s : Store) (uid name tu : String) : Except String (Option PyRat) :=
  exercisePipeline s uid
    (fun e => containsCI name e.name && e.weight.isSome)
    (fun valid rows =>
      match maxWeightLoop tu valid rows 0 with
      | .error msg => .error msg
      | .ok mw => .ok (if qlt 0 mw then some (pyRound1 mw) else none))

/-- The latest non-deleted measurement with a non-null weight
(`order measured_at desc` + `limit 1`; first row wins on equal timestamps). -/
def latestMeasurement (s : Store) (uid : String) : Option MeasurementRow :=
  (s.measurements.filter fun m =>
      m.user_id = uid ∧ m.weight.isSome = true ∧ m.deleted = false).foldl
    (fun acc m =>
      match acc with
      | none => some m
      | some b => if b.measured_at < m.measured_at then some m else acc)
    none

/-- `WeightStrategy._get_body_weight`. -/
def getBodyWeight (s : Store) (uid tu : String) : Except String (Option PyRat) :=
  if s.measurements_fail then .error "measurements query failed"
  else
    match latestMeasurement s uid with
    | none => .ok none
    | some m =>
      let w0 := m.weight.getD 0
      let wu := strOr m.weight_unit "kg"
      if lowerStr wu ≠ tu then
        match UnitConverter.convert_weight w0 wu tu with
        | .error msg => .error msg
        | .ok w => .ok (some (pyRound1 w))
      else .ok (some (pyRound1 w0))

/-- `WeightStrategy.calculate` (the target unit is already lowercased by
`WeightStrategy.__init__`). -/
def weightCalculate (s : Store) (uid : String) (title : String) (tu : String) :
    Except String (Option PyRat) :=
  match extract_exercise_name title with
  | none => .ok none
  | some name =>
    if is_body_weight_goal title then getBodyWeight s uid tu
    else getExerciseMaxWeight s uid name tu

/-- The accumulation loop of `MaxRepsStrategy.calculate` (no unit conversion,
so it cannot fail). -/
def maxRepsLoop (valid : List String) : List ExerciseRow → PyRat → PyRat
  | [], acc => acc
  | e :: rest, acc =>
    match e.workout_id with
    | none => maxRepsLoop valid rest acc
    | some wid =>
      if wid ∈ valid then maxRepsLoop valid rest (qmax acc (e.reps.getD 0))
      else maxRepsLoop valid rest acc

/-- `MaxRepsStrategy.calculate`. -/
def maxRepsCalculate (s : Store) (uid : String) (title : String) :
    Except String (Option PyRat) :=
  match extract_exercise_name title with
  | none => .ok none
  | some name =>
    exercisePipeline s uid
      (fun e => containsCI name e.name && e.reps.isSome)
      (fun valid rows =>
        let mr := maxRepsLoop valid rows 0
        .ok (if qlt 0 mr then some mr else none))

/-- The summation loop of `DistanceStrategy.calculate`. -/
def distanceLoop (tu : String) (valid : List String) :
    List ExerciseRow → PyRat → Except String PyRat
  | [], acc => .ok acc
  | e :: rest, acc =>
    match e.workout_id with
    | none => distanceLoop tu valid rest acc
    | some wid =>
      if wid ∈ valid then
        let d0 := e.distance.getD 0
        let du := strOr e.distance_unit "km"
        if lowerStr du ≠ tu then
          match UnitConverter.convert_distance d0 du tu with
          | .error msg => .error msg
          | .ok d => distanceLoop tu valid rest (qadd acc d)
        else distanceLoop tu valid rest (qadd acc d0)
      else distanceLoop tu valid rest acc

/-- `DistanceStrategy.calculate` (the name filter is only applied when an
exercise name could be extracted). -/
def distanceCalculate (s : Store) (uid : String) (title : String) (tu : String) :
    Except String (Option PyRat) :=
  let nameOpt := extract_exercise_name title
  exercisePipeline s uid
    (fun e =>
      (match nameOpt with
       | some n => containsCI n e.name
       | none => true) && e.distance.isSome)
    (fun valid rows =>
      match distanceLoop tu valid rows 0 with
      | .error msg => .error msg
      | .ok td => .ok (if qlt 0 td then some (pyRound1 td) else none))

/-! ## Achievement policy and orchestrator -/

/-- `is_goal_achieved`: direction inferred from `initial_value <= target_value`
at call time. -/
def is_goal_achieved (initial_value current_value target_value : PyRat) : Bool :=
  if qle initial_value target_value then qle target_value current_value
  else qle current_value target_value

/-- The strategy registry of `GoalSyncService.__init__`, as an enumerated key
type (the `WeightStrategy`/`DistanceStrategy` constructor arguments are the
already-lowercased target units). -/
inductive Strategy where
  | workoutCount
  | duration
  | uniqueDays
  | weight (target_unit : String)
  | maxReps
  | distance (target_unit : String)
deriving DecidableEq, Repr

/-- `self.strategies.get(unit)`: the registry lookup. -/
def strategyFor (unit : String) : Option Strategy :=
  if unit = "workouts" then some .workoutCount
  else if unit = "minutes" then some .duration
  else if unit = "days" then some .uniqueDays
  else if unit = "kg" then some (.weight "kg")
  else if unit = "lbs" then some (.weight "lbs")
  else if unit = "reps" then some .maxReps
  else if unit = "km" then some (.distance "km")
  else if unit = "miles" then some (.distance "miles")
  else none

/-- Dispatch `strategy.calculate(ctx)`. -/
def Strategy.calculate : Strategy → Store → String → GoalRow → Except String (Option PyRat)
  | .workoutCount, s, uid, _ => workoutCountCalculate s uid
  | .duration, s, uid, _ => durationCalculate s uid
  | .uniqueDays, s, uid, _ => uniqueDaysCalculate s uid
  | .weight tu, s, uid, g => weightCalculate s uid g.title tu
  | .maxReps, s, uid, g => maxRepsCalculate s uid g.title
  | .distance tu, s, uid, g => distanceCalculate s uid g.title tu

/-- The payload of the single goal-row update issued by `_sync_single_goal`
(`updated_at` is always set to the database-evaluated `now()`). -/
structure UpdateOp where
  goal_id : String
  current_value : PyRat
  achieved : Bool
deriving DecidableEq, Repr

/-- The detail record returned for an updated goal. -/
structure SyncDetail where
  goal_id : String
  title : String
  old_value : Option PyRat
  new_value : PyRat
  unit : String
  achieved : Bool
deriving DecidableEq, Repr

/-- `GoalSyncResult` (the aggregate returned by `sync_user_goals`). -/
structure GoalSyncResult where
  success : Bool
  updated : ℕ
  message : String
  details : List SyncDetail
deriving DecidableEq, Repr

/-- Python `new_value == goal.current_value` (`None` compares unequal to any
number). -/
def eqStored (nv : PyRat) : Option PyRat → Bool
  | none => false
  | some c => qeq nv c

/-- `GoalSyncService._sync_single_goal`.  Besides the returned detail
(`none` for a no-op or an absorbed exception), the effective goal-row writes
are returned as a log (empty, or one `UpdateOp`; an update attempt that
raises performs no effective write and is absorbed). -/
def sync_single_goal (s : Store) (uid : String) (g : GoalRow) :
    Option SyncDetail × List UpdateOp :=
  match strategyFor (lowerStr g.unit) with
  | none => (none, [])
  | some strat =>
    match strat.calculate s uid g with
    | .error _ => (none, [])
    | .ok none => (none, [])
    | .ok (some nv) =>
      if eqStored nv g.current_value then (none, [])
      else
        let ach := is_goal_achieved g.initial_value nv g.target_value
        if s.update_fail then (none, [])
        else
          (some { goal_id := g.id, title := g.title, old_value := g.current_value,
                  new_value := nv, unit := g.unit, achieved := ach },
           [{ goal_id := g.id, current_value := nv, achieved := ach }])

/-- The `for goal_data in response.data` loop of `sync_user_goals`:
accumulates the updated count, the detail records (in processing order) and
the effective writes. -/
def syncGoalsLoop (s : Store) (uid : String) :
    List GoalRow → ℕ × List SyncDetail × List UpdateOp
  | [] => (0, [], [])
  | g :: rest =>
    let r := sync_single_goal s uid g
    let t := syncGoalsLoop s uid rest
    match r.1 with
    | some d => (t.1 + 1, d :: t.2.1, r.2 ++ t.2.2)
    | none => (t.1, t.2.1, r.2 ++ t.2.2)

/-- `GoalSyncService.sync_user_goals`.  The first component models the returned
value (`.error` = an uncaught exception escaping to the caller, which can only
come from the initial goals query); the second is the effective write log. -/
def sync_user_goals (s : Store) (uid : String) :
    Except String GoalSyncResult × List UpdateOp :=
  if s.goals_fail then (.error "goals query failed", [])
  else
    let goals := s.goals.filter fun g => g.user_id = uid ∧ g.deleted = false
    if goals.isEmpty then
      (.ok { success := true, updated := 0, message := "No goals found", details := [] }, [])
    else
      let t := syncGoalsLoop s uid goals
      (.ok { success := true, updated := t.1,
             message := "Synced " ++ toString t.1 ++ " goal(s)", details := t.2.1 },
       t.2.2)

/-- Application of an issued update to a goal row: only `current_value`,
`achieved` and `updated_at` are written (`updated_at` receives the literal
`"now()"` the service sends, standing for the store-evaluated timestamp). -/
def applyUpdate (g : GoalRow) (op : UpdateOp) : GoalRow :=
  if g.id = op.goal_id then
    { g with current_value := some op.current_value, achieved := op.achieved,
             updated_at := "now()" }
  else g

/-! ## Concrete fixtures -/

/-- The goal of the end-to-end scenario. -/
def c2goal : GoalRow :=
  { id := "g1", user_id := "u1", title := "Bench press 100kg",
    description := none, initial_value := 60, current_value := some 60,
    target_value := 100, unit := "kg", target_date := none, achieved := false,
    status := "active", created_at := "2024-01-01", updated_at := "2024-01-01",
    deleted := false }

def c2workout : WorkoutRow :=
  { id := "w1", user_id := "u1", date := some "2024-01-15",
    duration_minutes := some 45, deleted := false }

def c2exercise : ExerciseRow :=
  { workout_id := some "w1", name := "Bench Press", weight := some 105,
    weight_unit := some "kg", reps := some 5, distance := none,
    distance_unit := none }

def c2store : Store :=
  { workouts := [c2workout], exercises := [c2exercise], measurements := [],
    goals := [c2goal], workouts_fail := false, exercises_fail := false,
    measurements_fail := false, goals_fail := false, update_fail := false }

example :
    sync_user_goals c2store "u1" =
      (.ok { success := true, updated := 1, message := "Synced 1 goal(s)",
             details := [{ goal_id := "g1", title := "Bench press 100kg",
                           old_value := some 60, new_value := 105, unit := "kg",
                           achieved := true }] },
       [{ goal_id := "g1", current_value := 105, achieved := true }]) := by decide

/-! ## Claims -/

/-- C1: `is_goal_achieved(initial, current, target)` returns
`current >= target` when `initial <= target` (increasing goal) and
`current <= target` when `initial > target` (decreasing goal); in particular
`is_goal_achieved(0, 50, 50) = true`, `is_goal_achieved(0, 30, 50) = false`,
`is_goal_achieved(80, 70, 70) = true`, `is_goal_achieved(80, 75, 70) = false`. -/
theorem C1_achievement_policy (i c t : PyRat) :
    (qle i t = true → is_goal_achieved i c t = qle t c) ∧
    (qle i t = false → is_goal_achieved i c t = qle c t) ∧
    is_goal_achieved 0 50 50 = true ∧
    is_goal_achieved 0 30 50 = false ∧
    is_goal_achieved 80 70 70 = true ∧
    is_goal_achieved 80 75 70 = false := by
  refine ⟨fun h => ?_, fun h => ?_, by decide, by decide, by decide, by decide⟩ <;>
    simp [is_goal_achieved, h]

/-- Witness for `C1_achievement_policy` at concrete inputs. -/
theorem C1_achievement_policy_witness :
    is_goal_achieved 0 30 50 = qle 50 30 ∧ is_goal_achieved 80 75 70 = qle 75 70 :=
  ⟨(C1_achievement_policy 0 30 50).1 (by decide),
   ((C1_achievement_policy 80 75 70).2.1) (by decide)⟩

/-- C2: on a store holding the goal
`{title: "Bench press 100kg", initial 60, current 60, target 100, unit kg}`
and one live workout of the same user with exercise
`{name: "Bench Press", weight: 105, weight_unit: "kg"}`, syncing computes
105.0, detects the change from 60, marks achieved, persists exactly
`{current_value, achieved, updated_at}` and returns the matching detail. -/
theorem C2_end_to_end :
    sync_user_goals c2store "u1" =
      (.ok { success := true, updated := 1, message := "Synced 1 goal(s)",
             details := [{ goal_id := "g1", title := "Bench press 100kg",
                           old_value := some 60, new_value := 105, unit := "kg",
                           achieved := true }] },
       [{ goal_id := "g1", current_value := 105, achieved := true }]) ∧
    applyUpdate c2goal { goal_id := "g1", current_value := 105, achieved := true } =
      { c2goal with current_value := some 105, achieved := true,
                    updated_at := "now()" } := by decide

/-- C8: concrete conversion values, identity for any equal (lowercased) unit
pair, and case-insensitive matching of the unit strings. -/
theorem C8_unit_conversion (v : PyRat) (u1 u2 : String) :
    UnitConverter.convert_weight 10 "kg" "lbs" = .ok 22 ∧
    UnitConverter.convert_weight 22 "lbs" "kg" = .ok 10 ∧
    UnitConverter.convert_distance 10 "km" "miles" = .ok (mkQ 62 10) ∧
    UnitConverter.convert_distance 10 "miles" "km" = .ok (mkQ 161 10) ∧
    (lowerStr u1 = lowerStr u2 →
      UnitConverter.convert_weight v u1 u2 = .ok v ∧
      UnitConverter.convert_distance v u1 u2 = .ok v) ∧
    (lowerStr u1 = "kg" → lowerStr u2 = "lbs" →
      UnitConverter.convert_weight v u1 u2 =
        .ok (pyRound1 (qmul v UnitConverter.KG_TO_LBS))) ∧
    (lowerStr u1 = "lbs" → lowerStr u2 = "kg" →
      UnitConverter.convert_weight v u1 u2 =
        .ok (pyRound1 (qmul v UnitConverter.LBS_TO_KG))) ∧
    (lowerStr u1 = "km" → lowerStr u2 = "miles" →
      UnitConverter.convert_distance v u1 u2 =
        .ok (pyRound1 (qmul v UnitConverter.KM_TO_MILES))) ∧
    (lowerStr u1 = "miles" → lowerStr u2 = "km" →
      UnitConverter.convert_distance v u1 u2 =
        .ok (pyRound1 (qmul v UnitConverter.MILES_TO_KM))) := by
  refine ⟨by decide, by decide, by decide, by decide, fun h => ?_,
    fun h1 h2 => ?_, fun h1 h2 => ?_, fun h1 h2 => ?_, fun h1 h2 => ?_⟩ <;>
    simp_all [UnitConverter.convert_weight, UnitConverter.convert_distance]

/-- Witness for `C8_unit_conversion`: identity on `"Stones"` and the
case-insensitive kg→lbs conversion. -/
theorem C8_unit_conversion_witness :
    UnitConverter.convert_weight 7 "Stones" "stones" = .ok 7 ∧
    UnitConverter.convert_weight 7 "KG" "Lbs" =
      .ok (pyRound1 (qmul 7 UnitConverter.KG_TO_LBS)) :=
  ⟨((C8_unit_conversion 7 "Stones" "stones").2.2.2.2.1 (by decide)).1,
   (C8_unit_conversion 7 "KG" "Lbs").2.2.2.2.2.1 (by decide) (by decide)⟩

/-- Goal used for the unrecognized-record-unit scenario. -/
def badUnitGoal : GoalRow :=
  { id := "g9", user_id := "u1", title := "Deadlift", description := none,
    initial_value := 40, current_value := some 40, target_value := 60,
    unit := "kg", target_date := none, achieved := false, status := "active",
    created_at := "2024-01-01", updated_at := "2024-01-01", deleted := false }

def badUnitWorkout : WorkoutRow :=
  { id := "w9", user_id := "u1", date := some "2024-02-01",
    duration_minutes := some 30, deleted := false }

/-- An otherwise-valid exercise record carrying the unrecognized
`weight_unit = "stones"`. -/
def badUnitExercise : ExerciseRow :=
  { workout_id := some "w9", name := "Deadlift", weight := some 50,
    weight_unit := some "stones", reps := some 5, distance := none,
    distance_unit := none }

/-- A store with no data-access failure at all, containing the
`"stones"`-unit record. -/
def badUnitStore : Store :=
  { workouts := [badUnitWorkout], exercises := [badUnitExercise],
    measurements := [], goals := [badUnitGoal], workouts_fail := false,
    exercises_fail := false, measurements_fail := false, goals_fail := false,
    update_fail := false }

/-- C9 counterexample: `("stones", "stones")` is not an ordered pair over
`{kg, lbs}` (even after lowercasing), yet `convert_weight` does not fail on
it — the `from == to` identity short-circuit returns the value. -/
theorem C9_counterexample :
    UnitConverter.convert_weight 1 "stones" "stones" = .ok 1 ∧
    lowerStr "stones" ≠ "kg" ∧ lowerStr "stones" ≠ "lbs" := by decide

/-- C9 (amended): for every pair of unit strings that is neither equal after
lowercasing nor an ordered pair over `{kg, lbs}` (resp. `{km, miles}`), the
converter fails with the unsupported-unit error, and that error propagates
out of a strategy `calculate` that reaches it rather than being swallowed. -/
theorem C9_unsupported_pair_errors (v : PyRat) (u1 u2 : String) :
    (lowerStr u1 ≠ lowerStr u2 →
      ¬(lowerStr u1 = "kg" ∧ lowerStr u2 = "lbs") →
      ¬(lowerStr u1 = "lbs" ∧ lowerStr u2 = "kg") →
      UnitConverter.convert_weight v u1 u2 =
        .error ("Cannot convert weight from " ++ lowerStr u1 ++ " to " ++ lowerStr u2)) ∧
    (lowerStr u1 ≠ lowerStr u2 →
      ¬(lowerStr u1 = "km" ∧ lowerStr u2 = "miles") →
      ¬(lowerStr u1 = "miles" ∧ lowerStr u2 = "km") →
      UnitConverter.convert_distance v u1 u2 =
        .error ("Cannot convert distance from " ++ lowerStr u1 ++ " to " ++ lowerStr u2)) ∧
    (Strategy.weight "kg").calculate badUnitStore "u1" badUnitGoal =
      .error "Cannot convert weight from stones to kg" := by
  refine ⟨fun h1 h2 h3 => ?_, fun h1 h2 h3 => ?_, by decide⟩ <;>
  · simp only [UnitConverter.convert_weight, UnitConverter.convert_distance]
    rw [if_neg h1, if_neg h2, if_neg h3]

/-- Witness for `C9_unsupported_pair_errors`. -/
theorem C9_unsupported_pair_errors_witness :
    UnitConverter.convert_weight 1 "kg" "stones" =
      .error ("Cannot convert weight from " ++ lowerStr "kg" ++ " to " ++ lowerStr "stones") :=
  (C9_unsupported_pair_errors 1 "kg" "stones").1 (by decide) (by decide) (by decide)

/-- Goal with the unsupported unit `"widgets"`. -/
def widgetsGoal : GoalRow :=
  { id := "g7", user_id := "u1", title := "Collect widgets",
    description := none, initial_value := 0, current_value := some 1,
    target_value := 5, unit := "widgets", target_date := none,
    achieved := false, status := "active", created_at := "2024-01-01",
    updated_at := "2024-01-01", deleted := false }

/-- A healthy store whose only goal has unit `"widgets"` (activity data
present, so a dispatched strategy would have produced a value). -/
def widgetsStore : Store :=
  { workouts := [c2workout], exercises := [c2exercise], measurements := [],
    goals := [widgetsGoal], workouts_fail := false, exercises_fail := false,
    measurements_fail := false, goals_fail := false, update_fail := false }

/-- C7: a goal whose lowercased unit is outside the registry is never
dispatched (`strategyFor` misses), produces no write and no detail, and
`sync_user_goals` still reports overall success with it not counted. -/
theorem C7_unsupported_unit_skipped (s : Store) (uid : String) (g : GoalRow)
    (hmem : lowerStr g.unit ∉
      (["workouts", "minutes", "days", "kg", "lbs", "reps", "km", "miles"] : List String)) :
    strategyFor (lowerStr g.unit) = none ∧
    sync_single_goal s uid g = (none, []) ∧
    sync_user_goals widgetsStore "u1" =
      (.ok { success := true, updated := 0, message := "Synced 0 goal(s)",
             details := [] }, []) := by
  have hnone : strategyFor (lowerStr g.unit) = none := by
    unfold strategyFor
    split_ifs <;> simp_all
  refine ⟨hnone, ?_, by decide⟩
  unfold sync_single_goal
  rw [hnone]

/-- Witness for `C7_unsupported_unit_skipped` on the `"widgets"` goal. -/
theorem C7_unsupported_unit_skipped_witness :
    strategyFor (lowerStr widgetsGoal.unit) = none ∧
    sync_single_goal widgetsStore "u1" widgetsGoal = (none, []) ∧
    sync_user_goals widgetsStore "u1" =
      (.ok { success := true, updated := 0, message := "Synced 0 goal(s)",
             details := [] }, []) :=
  C7_unsupported_unit_skipped widgetsStore "u1" widgetsGoal (by decide)

/-- Store whose workout durations are `[60, null, 30]`. -/
def nullDurationStore : Store :=
  { workouts :=
      [{ id := "wa", user_id := "u1", date := some "2024-03-01",
         duration_minutes := some 60, deleted := false },
       { id := "wb", user_id := "u1", date := none,
         duration_minutes := none, deleted := false },
       { id := "wc", user_id := "u1", date := some "2024-03-02",
         duration_minutes := some 30, deleted := false }],
    exercises := [], measurements := [], goals := [], workouts_fail := false,
    exercises_fail := false, measurements_fail := false, goals_fail := false,
    update_fail := false }

/-- C10: the workouts/minutes/days strategies always produce a definite value
(never `None`, no error without a data-access failure); they return 0 when
the user has no live workouts (null durations count as 0); and a stored
nonzero `current_value` is overwritten to 0 once all of the user's workouts
are soft-deleted. -/
theorem C10_count_strategies_total (s : Store) (uid : String) (g : GoalRow) (c : PyRat) :
    (s.workouts_fail = false →
      (∃ v, workoutCountCalculate s uid = .ok (some v)) ∧
      (∃ v, durationCalculate s uid = .ok (some v)) ∧
      (∃ v, uniqueDaysCalculate s uid = .ok (some v))) ∧
    ((∀ w ∈ s.workouts, w.user_id = uid → w.deleted = true) →
      s.workouts_fail = false →
      workoutCountCalculate s uid = .ok (some 0) ∧
      durationCalculate s uid = .ok (some 0) ∧
      uniqueDaysCalculate s uid = .ok (some 0)) ∧
    durationCalculate nullDurationStore "u1" = .ok (some 90) ∧
    ((∀ w ∈ s.workouts, w.user_id = uid → w.deleted = true) →
      s.workouts_fail = false → s.update_fail = false →
      (g.unit = "workouts" ∨ g.unit = "minutes" ∨ g.unit = "days") →
      g.current_value = some c → qeq 0 c = false →
      sync_single_goal s uid g =
        (some { goal_id := g.id, title := g.title, old_value := g.current_value,
                new_value := 0, unit := g.unit,
                achieved := is_goal_achieved g.initial_value 0 g.target_value },
         [{ goal_id := g.id, current_value := 0,
            achieved := is_goal_achieved g.initial_value 0 g.target_value }])) := by
  have hq : ∀ hf : s.workouts_fail = false,
      queryWorkouts s uid =
        .ok (s.workouts.filter fun w => w.user_id = uid ∧ w.deleted = false) := by
    intro hf; simp [queryWorkouts, hf]
  have hnil : (∀ w ∈ s.workouts, w.user_id = uid → w.deleted = true) →
      (s.workouts.filter fun w => w.user_id = uid ∧ w.deleted = false) = [] := by
    intro hdel
    simp only [List.filter_eq_nil_iff, decide_eq_true_eq]
    intro w hw hcontra
    exact absurd (hdel w hw hcontra.1) (by simp [hcontra.2])
  refine ⟨fun hf => ⟨?_, ?_, ?_⟩, fun hdel hf => ⟨?_, ?_, ?_⟩, by decide,
      fun hdel hf hu hunit hcur hne => ?_⟩
  · unfold workoutCountCalculate
    rw [hq hf]
    exact ⟨_, rfl⟩
  · unfold durationCalculate
    rw [hq hf]
    split
    · simp_all
    · split <;> exact ⟨_, rfl⟩
  · unfold uniqueDaysCalculate
    rw [hq hf]
    split
    · simp_all
    · split <;> exact ⟨_, rfl⟩
  · unfold workoutCountCalculate
    rw [hq hf, hnil hdel]
    rfl
  · unfold durationCalculate
    rw [hq hf, hnil hdel]
    rfl
  · unfold uniqueDaysCalculate
    rw [hq hf, hnil hdel]
    rfl
  · have hwc : workoutCountCalculate s uid = .ok (some 0) := by
      unfold workoutCountCalculate
      rw [hq hf, hnil hdel]
      rfl
    have hdu : durationCalculate s uid = .ok (some 0) := by
      unfold durationCalculate
      rw [hq hf, hnil hdel]
      rfl
    have hud : uniqueDaysCalculate s uid = .ok (some 0) := by
      unfold uniqueDaysCalculate
      rw [hq hf, hnil hdel]
      rfl
    unfold sync_single_goal
    rcases hunit with h | h | h <;> rw [h] <;>
      simp only [show strategyFor (lowerStr "workouts") = some .workoutCount from by decide,
        show strategyFor (lowerStr "minutes") = some .duration from by decide,
        show strategyFor (lowerStr "days") = some .uniqueDays from by decide,
        Strategy.calculate, hwc, hdu, hud, hcur] <;>
      simp [eqStored, hne, hu]

/-- Store where the user's only workout is soft-deleted. -/
def allDeletedStore : Store :=
  { workouts := [{ id := "wd", user_id := "u1", date := some "2024-01-05",
                   duration_minutes := some 20, deleted := true }],
    exercises := [], measurements := [], goals := [], workouts_fail := false,
    exercises_fail := false, measurements_fail := false, goals_fail := false,
    update_fail := false }

/-- A `workouts`-unit goal holding a stale nonzero `current_value`. -/
def staleGoal : GoalRow :=
  { id := "g10", user_id := "u1", title := "Do 100 workouts",
    description := none, initial_value := 0, current_value := some 50,
    target_value := 100, unit := "workouts", target_date := none,
    achieved := false, status := "active", created_at := "2024-01-01",
    updated_at := "2024-01-01", deleted := false }

/-- Witness for `C10_count_strategies_total`: with every workout soft-deleted,
the stale `current_value = 50` is overwritten to 0. -/
theorem C10_count_strategies_total_witness :
    sync_single_goal allDeletedStore "u1" staleGoal =
      (some { goal_id := "g10", title := "Do 100 workouts", old_value := some 50,
              new_value := 0, unit := "workouts", achieved := false },
       [{ goal_id := "g10", current_value := 0, achieved := false }]) :=
  (C10_count_strategies_total allDeletedStore "u1" staleGoal 50).2.2.2
    (by decide) rfl rfl (Or.inl rfl) rfl (by decide)

/-- Distance goal used for the unrecognized-record-unit scenario. -/
def badDistGoal : GoalRow :=
  { id := "g3d", user_id := "u1", title := "Run", description := none,
    initial_value := 0, current_value := some 0, target_value := 50,
    unit := "km", target_date := none, achieved := false, status := "active",
    created_at := "2024-01-01", updated_at := "2024-01-01", deleted := false }

def badDistWorkout : WorkoutRow :=
  { id := "w3d", user_id := "u1", date := some "2024-02-02",
    duration_minutes := some 40, deleted := false }

/-- An otherwise-valid exercise record carrying the unrecognized
`distance_unit = "stones"`. -/
def badDistExercise : ExerciseRow :=
  { workout_id := some "w3d", name := "Morning Run", weight := none,
    weight_unit := none, reps := none, distance := some 5,
    distance_unit := some "stones" }

/-- A store with no data-access failure at all, containing the
`"stones"`-distance-unit record. -/
def badDistStore : Store :=
  { workouts := [badDistWorkout], exercises := [badDistExercise],
    measurements := [], goals := [badDistGoal], workouts_fail := false,
    exercises_fail := false, measurements_fail := false, goals_fail := false,
    update_fail := false }

/-- C3 counterexample: with no data-access failure at all, an otherwise-valid
exercise record whose `weight_unit` (resp. `distance_unit`) is the
unrecognized `"stones"` makes `WeightStrategy.calculate` (resp.
`DistanceStrategy.calculate`) raise — the `UnitConverter` `ValueError`
escapes the strategy — instead of skipping the record. -/
theorem C3_counterexample :
    badUnitStore.workouts_fail = false ∧ badUnitStore.exercises_fail = false ∧
    badUnitStore.measurements_fail = false ∧
    (Strategy.weight "kg").calculate badUnitStore "u1" badUnitGoal =
      .error "Cannot convert weight from stones to kg" ∧
    badDistStore.workouts_fail = false ∧ badDistStore.exercises_fail = false ∧
    badDistStore.measurements_fail = false ∧
    (Strategy.distance "km").calculate badDistStore "u1" badDistGoal =
      .error "Cannot convert distance from stones to km" := by decide

/-- Every run of `post` in the pipeline yielding `.ok` and no data-access
failure make the whole pipeline yield `.ok`. -/
lemma exercisePipeline_ok (s : Store) (uid : String) (q : ExerciseRow → Bool)
    (post : List String → List ExerciseRow → Except String (Option PyRat))
    (hex : s.exercises_fail = false) (hwf : s.workouts_fail = false)
    (hpost : ∀ valid rows, ∃ r, post valid rows = .ok r) :
    ∃ r, exercisePipeline s uid q post = .ok r := by
  unfold exercisePipeline queryUserWorkoutsIn
  simp only [hex, hwf, Bool.false_eq_true, if_false]
  split_ifs <;> first
    | exact ⟨_, rfl⟩
    | exact hpost _ _

/-- C3 (amended): the workouts/minutes/days/reps strategies raise only on
data-access failures and treat missing or null record fields by skipping them
or counting them as 0 (durations `[60, null, 30]` sum to 90); but a
contributing record carrying the unrecognized `weight_unit` (resp.
`distance_unit`) value `"stones"` makes the kg/lbs weight strategy (resp. the
km/miles distance strategy) raise the converter error — shown on both the
weight and the distance path — which the orchestrator then absorbs as "no
update for this goal". -/
theorem C3_malformed_data_handling (s : Store) (uid : String) (title : String) :
    (s.workouts_fail = false →
      (∃ r, workoutCountCalculate s uid = .ok r) ∧
      (∃ r, durationCalculate s uid = .ok r) ∧
      (∃ r, uniqueDaysCalculate s uid = .ok r)) ∧
    (s.exercises_fail = false → s.workouts_fail = false →
      ∃ r, maxRepsCalculate s uid title = .ok r) ∧
    durationCalculate nullDurationStore "u1" = .ok (some 90) ∧
    (Strategy.weight "kg").calculate badUnitStore "u1" badUnitGoal =
      .error "Cannot convert weight from stones to kg" ∧
    sync_single_goal badUnitStore "u1" badUnitGoal = (none, []) ∧
    (Strategy.distance "km").calculate badDistStore "u1" badDistGoal =
      .error "Cannot convert distance from stones to km" ∧
    sync_single_goal badDistStore "u1" badDistGoal = (none, []) := by
  have hq : ∀ hf : s.workouts_fail = false,
      queryWorkouts s uid =
        .ok (s.workouts.filter fun w => w.user_id = uid ∧ w.deleted = false) := by
    intro hf; simp [queryWorkouts, hf]
  refine ⟨fun hf => ⟨?_, ?_, ?_⟩, fun hex hwf => ?_, by decide, by decide, by decide,
    by decide, by decide⟩
  · unfold workoutCountCalculate
    rw [hq hf]
    exact ⟨_, rfl⟩
  · unfold durationCalculate
    rw [hq hf]
    split
    · simp_all
    · split <;> exact ⟨_, rfl⟩
  · unfold uniqueDaysCalculate
    rw [hq hf]
    split
    · simp_all
    · split <;> exact ⟨_, rfl⟩
  · unfold maxRepsCalculate
    cases extract_exercise_name title with
    | none => exact ⟨_, rfl⟩
    | some name =>
      exact exercisePipeline_ok s uid _ _ hex hwf (fun valid rows => ⟨_, rfl⟩)

/-- Witness for `C3_malformed_data_handling`. -/
theorem C3_malformed_data_handling_witness :
    ∃ r, maxRepsCalculate badUnitStore "u1" "Deadlift" = .ok r :=
  (C3_malformed_data_handling badUnitStore "u1" "Deadlift").2.1 rfl rfl

/-- The goal loop's updated count equals the number of goals whose single-goal
sync produced a detail, and the details list has exactly that length. -/
lemma syncGoalsLoop_count (s : Store) (uid : String) (L : List GoalRow) :
    (syncGoalsLoop s uid L).1 =
      L.countP (fun g => (sync_single_goal s uid g).1.isSome) ∧
    (syncGoalsLoop s uid L).2.1.length = (syncGoalsLoop s uid L).1 := by
  induction L with
  | nil => simp [syncGoalsLoop]
  | cons g rest ih =>
    unfold syncGoalsLoop
    cases h : (sync_single_goal s uid g).1 <;>
      simp [h, List.countP_cons, ih.1, ih.2]

/-- Store with one syncable goal but every activity query and the goal-row
update failing. -/
def chaosStore : Store :=
  { workouts := [c2workout], exercises := [c2exercise], measurements := [],
    goals := [staleGoal], workouts_fail := true, exercises_fail := true,
    measurements_fail := true, goals_fail := false, update_fail := true }

/-- An empty store whose goals-table query fails. -/
def failingGoalsStore : Store :=
  { workouts := [], exercises := [], measurements := [], goals := [],
    workouts_fail := false, exercises_fail := false,
    measurements_fail := false, goals_fail := true, update_fail := false }

/-- C4 counterexample: when the initial goals-list query itself fails, the
data-access failure escapes `sync_user_goals` to the caller instead of being
absorbed. -/
theorem C4_counterexample :
    (sync_user_goals failingGoalsStore "u1").1 = .error "goals query failed" := by decide

/-- C4 (amended): provided the initial goals-list query succeeds, every
exception during a single goal's computation or persistence is caught inside
the per-goal unit of work, the remaining goals still proceed (the aggregate
counts exactly the goals whose own sync produced a detail), and
`sync_user_goals` always reports success. -/
theorem C4_per_goal_absorption (s : Store) (uid : String)
    (h : s.goals_fail = false) :
    (∃ r : GoalSyncResult,
      (sync_user_goals s uid).1 = .ok r ∧ r.success = true ∧
      r.updated = ((s.goals.filter fun g => g.user_id = uid ∧ g.deleted = false).countP
          fun g => (sync_single_goal s uid g).1.isSome) ∧
      r.details.length = r.updated) ∧
    (∀ g st msg, strategyFor (lowerStr g.unit) = some st →
      st.calculate s uid g = .error msg → sync_single_goal s uid g = (none, [])) := by
  constructor
  · unfold sync_user_goals
    simp only [h, Bool.false_eq_true, if_false]
    split
    · next hemp =>
      refine ⟨_, rfl, rfl, ?_, rfl⟩
      rw [List.isEmpty_iff.mp hemp]
      rfl
    · exact ⟨_, rfl, rfl, (syncGoalsLoop_count s uid _).1,
        (syncGoalsLoop_count s uid _).2⟩
  · intro g st msg hst hcalc
    simp only [sync_single_goal, hst, hcalc]

/-- Witness for `C4_per_goal_absorption`: all activity queries and the update
failing, yet the sync succeeds with zero updates. -/
theorem C4_per_goal_absorption_witness :
    ∃ r : GoalSyncResult,
      (sync_user_goals chaosStore "u1").1 = .ok r ∧ r.success = true ∧
      r.updated = ((chaosStore.goals.filter fun g =>
          g.user_id = "u1" ∧ g.deleted = false).countP
          fun g => (sync_single_goal chaosStore "u1" g).1.isSome) ∧
      r.details.length = r.updated :=
  (C4_per_goal_absorption chaosStore "u1" rfl).1

/-- Any effective write issued by the single-goal sync carries exactly the
freshly computed value (differing from the stored one) and the derived
achievement flag, for the goal's own id. -/
lemma sync_single_goal_ops_spec (s : Store) (uid : String) (g : GoalRow)
    (op : UpdateOp) (hop : op ∈ (sync_single_goal s uid g).2) :
    ∃ st v, strategyFor (lowerStr g.unit) = some st ∧
      st.calculate s uid g = .ok (some v) ∧
      eqStored v g.current_value = false ∧
      op = { goal_id := g.id, current_value := v,
             achieved := is_goal_achieved g.initial_value v g.target_value } := by
  unfold sync_single_goal at hop
  cases hst : strategyFor (lowerStr g.unit) with
  | none => simp [hst] at hop
  | some st =>
    simp only [hst] at hop
    cases hcalc : st.calculate s uid g with
    | error msg => simp [hcalc] at hop
    | ok r =>
      simp only [hcalc] at hop
      cases r with
      | none => simp at hop
      | some nv =>
        cases heq : eqStored nv g.current_value with
        | true => simp [heq] at hop
        | false =>
          cases hupd : s.update_fail with
          | true => simp [heq, hupd] at hop
          | false =>
            simp only [heq, hupd, Bool.false_eq_true, if_false] at hop
            exact ⟨st, nv, rfl, hcalc, heq, by simpa using hop⟩

/-- The single-goal sync issues at most one write. -/
lemma sync_single_goal_ops_len (s : Store) (uid : String) (g : GoalRow) :
    (sync_single_goal s uid g).2.length ≤ 1 := by
  unfold sync_single_goal
  split
  · simp
  · split
    · simp
    · simp
    · split_ifs <;> simp

/-- The bulk write log is the concatenation of the per-goal write logs. -/
lemma syncGoalsLoop_ops (s : Store) (uid : String) (L : List GoalRow) :
    (syncGoalsLoop s uid L).2.2 = L.flatMap (fun g => (sync_single_goal s uid g).2) := by
  induction L with
  | nil => simp [syncGoalsLoop]
  | cons g rest ih =>
    unfold syncGoalsLoop
    cases h : (sync_single_goal s uid g).1 <;> simp [h, ih]

/-- C6: equal computed and stored values cause no write and no detail; each
processed goal contributes at most one write, and only when its computed
value differs from the stored one, with the write carrying exactly
`{current_value, achieved, updated_at}` and every other goal field kept. -/
theorem C6_write_discipline (s : Store) (uid : String) (g0 : GoalRow) (op0 : UpdateOp) :
    (∀ st v, strategyFor (lowerStr g0.unit) = some st →
      st.calculate s uid g0 = .ok (some v) →
      eqStored v g0.current_value = true →
      sync_single_goal s uid g0 = (none, [])) ∧
    (s.goals_fail = false →
      (sync_user_goals s uid).2 =
        (s.goals.filter fun g => g.user_id = uid ∧ g.deleted = false).flatMap
          fun g => (sync_single_goal s uid g).2) ∧
    (sync_single_goal s uid g0).2.length ≤ 1 ∧
    (s.goals_fail = false →
      ∀ op ∈ (sync_user_goals s uid).2,
        ∃ g ∈ s.goals.filter fun g => g.user_id = uid ∧ g.deleted = false,
          ∃ st v, strategyFor (lowerStr g.unit) = some st ∧
            st.calculate s uid g = .ok (some v) ∧
            eqStored v g.current_value = false ∧
            op = { goal_id := g.id, current_value := v,
                   achieved := is_goal_achieved g.initial_value v g.target_value }) ∧
    ((applyUpdate g0 op0).id = g0.id ∧
     (applyUpdate g0 op0).user_id = g0.user_id ∧
     (applyUpdate g0 op0).title = g0.title ∧
     (applyUpdate g0 op0).description = g0.description ∧
     (applyUpdate g0 op0).initial_value = g0.initial_value ∧
     (applyUpdate g0 op0).target_value = g0.target_value ∧
     (applyUpdate g0 op0).unit = g0.unit ∧
     (applyUpdate g0 op0).target_date = g0.target_date ∧
     (applyUpdate g0 op0).status = g0.status ∧
     (applyUpdate g0 op0).created_at = g0.created_at ∧
     (applyUpdate g0 op0).deleted = g0.deleted ∧
     (g0.id = op0.goal_id →
       (applyUpdate g0 op0).current_value = some op0.current_value ∧
       (applyUpdate g0 op0).achieved = op0.achieved ∧
       (applyUpdate g0 op0).updated_at = "now()")) := by
  have hops : s.goals_fail = false →
      (sync_user_goals s uid).2 =
        (s.goals.filter fun g => g.user_id = uid ∧ g.deleted = false).flatMap
          fun g => (sync_single_goal s uid g).2 := by
    intro hgf
    unfold sync_user_goals
    simp only [hgf, Bool.false_eq_true, if_false]
    split
    · next hemp => rw [List.isEmpty_iff.mp hemp]; rfl
    · exact syncGoalsLoop_ops s uid _
  refine ⟨fun st v hst hcalc heq => ?_, hops, sync_single_goal_ops_len s uid g0,
      fun hgf op hop => ?_, ?_⟩
  · simp only [sync_single_goal, hst, hcalc, heq, if_true]
  · rw [hops hgf] at hop
    obtain ⟨g, hg, hopg⟩ := List.mem_flatMap.mp hop
    exact ⟨g, hg, sync_single_goal_ops_spec s uid g op hopg⟩
  · unfold applyUpdate
    split_ifs with h <;> simp_all

/-- The bench-press goal with `current_value` already equal to the computed
105. -/
def noChangeGoal : GoalRow :=
  { c2goal with current_value := some 105 }

def noChangeStore : Store :=
  { c2store with goals := [noChangeGoal] }

/-- Witness for `C6_write_discipline`: computed value 105 equals the stored
105, so the goal sync is a no-op issuing no write. -/
theorem C6_write_discipline_witness :
    sync_single_goal noChangeStore "u1" noChangeGoal = (none, []) :=
  (C6_write_discipline noChangeStore "u1" noChangeGoal
      { goal_id := "g1", current_value := 105, achieved := true }).1
    (.weight "kg") 105 (by decide) (by decide) (by decide)

/-! ## Cross-user isolation -/

/-- Extension of a store by additional workouts and exercises (the claims use
it with rows that belong to other users or are soft-deleted). -/
def extendStore (s : Store) (extraW : List WorkoutRow) (extraE : List ExerciseRow) : Store :=
  { s with workouts := s.workouts ++ extraW, exercises := s.exercises ++ extraE }

lemma truthyStr_some {o : Option String} {x : String} (h : truthyStr o = some x) :
    o = some x := by
  cases o with
  | none => exact absurd h (by simp [truthyStr])
  | some s =>
    by_cases hs : s = ""
    · simp [truthyStr, hs] at h
    · simpa [truthyStr, hs] using h


/-- The user's live-workouts-by-id query ignores both the appended workouts
(not user-live by hypothesis) and extra candidate ids `B` that never denote a
user-live workout. -/
lemma userWorkouts_extend (s : Store) (uid : String) (extraW : List WorkoutRow)
    (hW : ∀ w ∈ extraW, w.user_id = uid → w.deleted = true)
    (A B : List String)
    (hB : ∀ i ∈ B, ∀ w, w ∈ s.workouts ++ extraW → w.id = i → w.user_id = uid →
      w.deleted = true) :
    (s.workouts ++ extraW).filter
        (fun w => decide (w.user_id = uid ∧ w.id ∈ A ++ B ∧ w.deleted = false))
      = s.workouts.filter
        (fun w => decide (w.user_id = uid ∧ w.id ∈ A ∧ w.deleted = false)) := by
  rw [List.filter_append]
  have h1 : extraW.filter
      (fun w => decide (w.user_id = uid ∧ w.id ∈ A ++ B ∧ w.deleted = false)) = [] := by
    rw [List.filter_eq_nil_iff]
    intro w hw
    simp only [decide_eq_true_eq, not_and]
    intro huid _
    simp [hW w hw huid]
  have h2 : s.workouts.filter
        (fun w => decide (w.user_id = uid ∧ w.id ∈ A ++ B ∧ w.deleted = false))
      = s.workouts.filter
        (fun w => decide (w.user_id = uid ∧ w.id ∈ A ∧ w.deleted = false)) := by
    apply List.filter_congr
    intro w hw
    by_cases huid : w.user_id = uid
    · by_cases hdel : w.deleted = false
      · have hmem : (w.id ∈ A ++ B) ↔ (w.id ∈ A) := by
          constructor
          · intro h
            rcases List.mem_append.mp h with h | h
            · exact h
            · exact absurd (hB w.id h w (List.mem_append.mpr (Or.inl hw)) rfl huid)
                (by simp [hdel])
          · intro h
            exact List.mem_append.mpr (Or.inl h)
        simp [huid, hdel, hmem]
      · simp [huid, hdel]
    · simp [huid]
  rw [h1, h2, List.append_nil]

/-- Core isolation lemma for the shared exercise pipeline: appending workouts
that are not the requesting user's live workouts, together with exercises
whose parent workout (wherever it lives) is never one of the user's live
workouts, does not change the pipeline outcome, provided the aggregation
`post` ignores the appended exercise rows. -/
lemma exercisePipeline_extend (s : Store) (uid : String)
    (extraW : List WorkoutRow) (extraE : List ExerciseRow)
    (q : ExerciseRow → Bool)
    (post : List String → List ExerciseRow → Except String (Option PyRat))
    (hwf : s.workouts_fail = false)
    (hW : ∀ w ∈ extraW, w.user_id = uid → w.deleted = true)
    (hE : ∀ e ∈ extraE, ∀ w, w ∈ s.workouts ++ extraW → e.workout_id = some w.id →
          w.user_id = uid → w.deleted = true)
    (hpost : ∀ valid rows rowsE,
        (∀ i ∈ valid, ∃ w ∈ s.workouts, w.id = i ∧ w.user_id = uid ∧ w.deleted = false) →
        (∀ e ∈ rowsE, e ∈ extraE) →
        post valid (rows ++ rowsE) = post valid rows) :
    exercisePipeline (extendStore s extraW extraE) uid q post =
      exercisePipeline s uid q post := by
  have hrowsE_sub : ∀ e ∈ extraE.filter q, e ∈ extraE := fun e he =>
    List.mem_of_mem_filter he
  have hidsE : ∀ i ∈ (extraE.filter q).filterMap (fun e => truthyStr e.workout_id),
      ∀ w, w ∈ s.workouts ++ extraW → w.id = i → w.user_id = uid → w.deleted = true := by
    intro i hi w hw hwid huid
    obtain ⟨e, he, hte⟩ := List.mem_filterMap.mp hi
    exact hE e (hrowsE_sub e he) w hw ((truthyStr_some hte).trans (by rw [hwid])) huid
  have hnilA : s.workouts.filter
      (fun w => decide (w.user_id = uid ∧ w.id ∈ ([] : List String) ∧
        w.deleted = false)) = [] := by
    rw [List.filter_eq_nil_iff]
    intro w hw
    simp
  simp only [exercisePipeline, queryUserWorkoutsIn,
    show (extendStore s extraW extraE).exercises_fail = s.exercises_fail from rfl,
    show (extendStore s extraW extraE).exercises = s.exercises ++ extraE from rfl,
    show (extendStore s extraW extraE).workouts_fail = s.workouts_fail from rfl,
    show (extendStore s extraW extraE).workouts = s.workouts ++ extraW from rfl,
    hwf, Bool.false_eq_true, if_false]
  cases hex : s.exercises_fail with
  | true => simp [hex]
  | false =>
    simp only [Bool.false_eq_true, if_false]
    rw [show List.filter q (s.exercises ++ extraE)
          = List.filter q s.exercises ++ List.filter q extraE from List.filter_append ..,
      show List.filterMap (fun e => truthyStr e.workout_id)
            (List.filter q s.exercises ++ List.filter q extraE)
          = List.filterMap (fun e => truthyStr e.workout_id) (List.filter q s.exercises)
            ++ List.filterMap (fun e => truthyStr e.workout_id) (List.filter q extraE)
        from List.filterMap_append ..]
    set rows := List.filter q s.exercises with hrows
    set rowsE := List.filter q extraE with hrowsE
    set idsS := rows.filterMap (fun e => truthyStr e.workout_id) with hidsS
    set idsE := rowsE.filterMap (fun e => truthyStr e.workout_id) with hidsEdef
    by_cases h1 : rows = []
    · conv_rhs => rw [if_pos h1]
      have hids0 : idsS = [] := by rw [hidsS, h1]; rfl
      by_cases h2 : rowsE = []
      · rw [if_pos (by rw [h1, h2]; rfl)]
      · rw [if_neg (by simp [List.append_eq_nil, h2])]
        by_cases h3 : idsE = []
        · rw [if_pos (by rw [hids0, h3]; rfl)]
        · rw [if_neg (by simp [List.append_eq_nil, h3])]
          rw [userWorkouts_extend s uid extraW hW idsS idsE hidsE]
          simp only [hids0] at hnilA ⊢
          rw [hnilA, if_pos rfl]
    · rw [if_neg (by simp [List.append_eq_nil, h1]), if_neg h1]
      by_cases hS : idsS = []
      · conv_rhs => rw [if_pos hS]
        by_cases h3 : idsE = []
        · rw [if_pos (by rw [hS, h3]; rfl)]
        · rw [if_neg (by simp [List.append_eq_nil, h3])]
          rw [userWorkouts_extend s uid extraW hW idsS idsE hidsE]
          simp only [hS] at hnilA ⊢
          rw [hnilA, if_pos rfl]
      · rw [if_neg (by simp [List.append_eq_nil, hS]), if_neg hS]
        rw [userWorkouts_extend s uid extraW hW idsS idsE hidsE]
        by_cases huwe : s.workouts.filter
            (fun w => decide (w.user_id = uid ∧ w.id ∈ idsS ∧ w.deleted = false)) = []
        · rw [if_pos huwe, if_pos huwe]
        · rw [if_neg huwe, if_neg huwe]
          apply hpost
          · intro i hi
            obtain ⟨w, hw, hwid⟩ := List.mem_map.mp hi
            have hw' := List.mem_filter.mp hw
            have hcond := of_decide_eq_true hw'.2
            exact ⟨w, hw'.1, hwid, hcond.1, hcond.2.2⟩
          · exact hrowsE_sub

lemma maxWeightLoop_append (tu : String) (valid : List String)
    (l1 l2 : List ExerciseRow) (acc : PyRat) :
    maxWeightLoop tu valid (l1 ++ l2) acc =
      match maxWeightLoop tu valid l1 acc with
      | .error msg => .error msg
      | .ok a => maxWeightLoop tu valid l2 a := by
  induction l1 generalizing acc with
  | nil => rfl
  | cons e rest ih =>
    simp only [List.cons_append, maxWeightLoop]
    cases e.workout_id with
    | none => exact ih acc
    | some wid =>
      by_cases hv : wid ∈ valid
      · simp only [if_pos hv]
        by_cases hu : lowerStr (strOr e.weight_unit "kg") ≠ tu
        · simp only [if_pos hu]
          cases UnitConverter.convert_weight (e.weight.getD 0)
              (strOr e.weight_unit "kg") tu with
          | error msg => rfl
          | ok w => exact ih (qmax acc w)
        · simp only [if_neg hu]
          exact ih (qmax acc (e.weight.getD 0))
      · simp only [if_neg hv]
        exact ih acc

lemma maxWeightLoop_skip (tu : String) (valid : List String)
    (l : List ExerciseRow)
    (hskip : ∀ e ∈ l, ∀ wid, e.workout_id = some wid → wid ∉ valid)
    (acc : PyRat) : maxWeightLoop tu valid l acc = .ok acc := by
  induction l generalizing acc with
  | nil => rfl
  | cons e rest ih =>
    cases he : e.workout_id with
    | none =>
      simp only [maxWeightLoop, he]
      exact ih (fun e' h' => hskip e' (List.mem_cons_of_mem _ h')) acc
    | some wid =>
      simp only [maxWeightLoop, he]
      rw [if_neg (hskip e (List.mem_cons_self ..) wid he)]
      exact ih (fun e' h' => hskip e' (List.mem_cons_of_mem _ h')) acc

lemma maxRepsLoop_append (valid : List String) (l1 l2 : List ExerciseRow)
    (acc : PyRat) :
    maxRepsLoop valid (l1 ++ l2) acc = maxRepsLoop valid l2 (maxRepsLoop valid l1 acc) := by
  induction l1 generalizing acc with
  | nil => rfl
  | cons e rest ih =>
    simp only [List.cons_append, maxRepsLoop]
    cases e.workout_id with
    | none => exact ih acc
    | some wid =>
      by_cases hv : wid ∈ valid
      · simp only [if_pos hv]
        exact ih (qmax acc (e.reps.getD 0))
      · simp only [if_neg hv]
        exact ih acc

lemma maxRepsLoop_skip (valid : List String) (l : List ExerciseRow)
    (hskip : ∀ e ∈ l, ∀ wid, e.workout_id = some wid → wid ∉ valid)
    (acc : PyRat) : maxRepsLoop valid l acc = acc := by
  induction l generalizing acc with
  | nil => rfl
  | cons e rest ih =>
    cases he : e.workout_id with
    | none =>
      simp only [maxRepsLoop, he]
      exact ih (fun e' h' => hskip e' (List.mem_cons_of_mem _ h')) acc
    | some wid =>
      simp only [maxRepsLoop, he]
      rw [if_neg (hskip e (List.mem_cons_self ..) wid he)]
      exact ih (fun e' h' => hskip e' (List.mem_cons_of_mem _ h')) acc

lemma distanceLoop_append (tu : String) (valid : List String)
    (l1 l2 : List ExerciseRow) (acc : PyRat) :
    distanceLoop tu valid (l1 ++ l2) acc =
      match distanceLoop tu valid l1 acc with
      | .error msg => .error msg
      | .ok a => distanceLoop tu valid l2 a := by
  induction l1 generalizing acc with
  | nil => rfl
  | cons e rest ih =>
    simp only [List.cons_append, distanceLoop]
    cases e.workout_id with
    | none => exact ih acc
    | some wid =>
      by_cases hv : wid ∈ valid
      · simp only [if_pos hv]
        by_cases hu : lowerStr (strOr e.distance_unit "km") ≠ tu
        · simp only [if_pos hu]
          cases UnitConverter.convert_distance (e.distance.getD 0)
              (strOr e.distance_unit "km") tu with
          | error msg => rfl
          | ok d => exact ih (qadd acc d)
        · simp only [if_neg hu]
          exact ih (qadd acc (e.distance.getD 0))
      · simp only [if_neg hv]
        exact ih acc

lemma distanceLoop_skip (tu : String) (valid : List String)
    (l : List ExerciseRow)
    (hskip : ∀ e ∈ l, ∀ wid, e.workout_id = some wid → wid ∉ valid)
    (acc : PyRat) : distanceLoop tu valid l acc = .ok acc := by
  induction l generalizing acc with
  | nil => rfl
  | cons e rest ih =>
    cases he : e.workout_id with
    | none =>
      simp only [distanceLoop, he]
      exact ih (fun e' h' => hskip e' (List.mem_cons_of_mem _ h')) acc
    | some wid =>
      simp only [distanceLoop, he]
      rw [if_neg (hskip e (List.mem_cons_self ..) wid he)]
      exact ih (fun e' h' => hskip e' (List.mem_cons_of_mem _ h')) acc

/-- Valid ids denote the user's live workouts, so exercises from the appended
rows are always skipped by the aggregation loops. -/
lemma skip_of_valid (s : Store) (uid : String) (extraW : List WorkoutRow)
    (extraE : List ExerciseRow)
    (hE : ∀ e ∈ extraE, ∀ w, w ∈ s.workouts ++ extraW → e.workout_id = some w.id →
          w.user_id = uid → w.deleted = true)
    (valid : List String) (rowsE : List ExerciseRow)
    (hvalid : ∀ i ∈ valid, ∃ w ∈ s.workouts, w.id = i ∧ w.user_id = uid ∧
      w.deleted = false)
    (hsub : ∀ e ∈ rowsE, e ∈ extraE) :
    ∀ e ∈ rowsE, ∀ wid, e.workout_id = some wid → wid ∉ valid := by
  intro e he wid hwid hmem
  obtain ⟨w, hw, hid, huid, hdel⟩ := hvalid wid hmem
  have := hE e (hsub e he) w (List.mem_append.mpr (Or.inl hw)) (by rw [hwid, hid]) huid
  rw [this] at hdel
  exact absurd hdel (by simp)

lemma weightCalculate_extend (s : Store) (uid : String)
    (extraW : List WorkoutRow) (extraE : List ExerciseRow)
    (hwf : s.workouts_fail = false)
    (hW : ∀ w ∈ extraW, w.user_id = uid → w.deleted = true)
    (hE : ∀ e ∈ extraE, ∀ w, w ∈ s.workouts ++ extraW → e.workout_id = some w.id →
          w.user_id = uid → w.deleted = true)
    (title tu : String) :
    weightCalculate (extendStore s extraW extraE) uid title tu =
      weightCalculate s uid title tu := by
  cases hx : extract_exercise_name title with
  | none => unfold weightCalculate; rw [hx]
  | some name =>
    simp only [weightCalculate, hx]
    by_cases hbw : is_body_weight_goal title = true
    · simp only [if_pos hbw]
      rfl
    · simp only [if_neg hbw]
      exact exercisePipeline_extend s uid extraW extraE _ _ hwf hW hE (by
        intro valid rows rowsE hvalid hsub
        cases hlr : maxWeightLoop tu valid rows 0 with
        | error msg => rw [maxWeightLoop_append, hlr]
        | ok a =>
          rw [maxWeightLoop_append, hlr]
          simp only [maxWeightLoop_skip tu valid rowsE
            (skip_of_valid s uid extraW extraE hE valid rowsE hvalid hsub)])

lemma maxRepsCalculate_extend (s : Store) (uid : String)
    (extraW : List WorkoutRow) (extraE : List ExerciseRow)
    (hwf : s.workouts_fail = false)
    (hW : ∀ w ∈ extraW, w.user_id = uid → w.deleted = true)
    (hE : ∀ e ∈ extraE, ∀ w, w ∈ s.workouts ++ extraW → e.workout_id = some w.id →
          w.user_id = uid → w.deleted = true)
    (title : String) :
    maxRepsCalculate (extendStore s extraW extraE) uid title =
      maxRepsCalculate s uid title := by
  cases hx : extract_exercise_name title with
  | none => unfold maxRepsCalculate; rw [hx]
  | some name =>
    simp only [maxRepsCalculate, hx]
    exact exercisePipeline_extend s uid extraW extraE _ _ hwf hW hE (by
      intro valid rows rowsE hvalid hsub
      rw [maxRepsLoop_append, maxRepsLoop_skip valid rowsE
        (skip_of_valid s uid extraW extraE hE valid rowsE hvalid hsub)])

lemma distanceCalculate_extend (s : Store) (uid : String)
    (extraW : List WorkoutRow) (extraE : List ExerciseRow)
    (hwf : s.workouts_fail = false)
    (hW : ∀ w ∈ extraW, w.user_id = uid → w.deleted = true)
    (hE : ∀ e ∈ extraE, ∀ w, w ∈ s.workouts ++ extraW → e.workout_id = some w.id →
          w.user_id = uid → w.deleted = true)
    (title tu : String) :
    distanceCalculate (extendStore s extraW extraE) uid title tu =
      distanceCalculate s uid title tu := by
  unfold distanceCalculate
  exact exercisePipeline_extend s uid extraW extraE _ _ hwf hW hE (by
    intro valid rows rowsE hvalid hsub
    cases hlr : distanceLoop tu valid rows 0 with
    | error msg => rw [distanceLoop_append, hlr]
    | ok a =>
      rw [distanceLoop_append, hlr]
      simp only [distanceLoop_skip tu valid rowsE
        (skip_of_valid s uid extraW extraE hE valid rowsE hvalid hsub)])

/-- C5: exercises attached to other users' (or soft-deleted) workouts
contribute nothing: extending a store with such workouts and their exercises
leaves every weight, reps and distance computation for the requesting user
unchanged. -/
theorem C5_cross_user_isolation (s : Store) (uid : String)
    (extraW : List WorkoutRow) (extraE : List ExerciseRow)
    (hwf : s.workouts_fail = false)
    (hW : ∀ w ∈ extraW, w.user_id = uid → w.deleted = true)
    (hE : ∀ e ∈ extraE, ∀ w ∈ s.workouts ++ extraW, e.workout_id = some w.id →
          w.user_id = uid → w.deleted = true) :
    (∀ title tu, weightCalculate (extendStore s extraW extraE) uid title tu =
        weightCalculate s uid title tu) ∧
    (∀ title, maxRepsCalculate (extendStore s extraW extraE) uid title =
        maxRepsCalculate s uid title) ∧
    (∀ title tu, distanceCalculate (extendStore s extraW extraE) uid title tu =
        distanceCalculate s uid title tu) :=
  ⟨fun title tu => weightCalculate_extend s uid extraW extraE hwf hW hE title tu,
   fun title => maxRepsCalculate_extend s uid extraW extraE hwf hW hE title,
   fun title tu => distanceCalculate_extend s uid extraW extraE hwf hW hE title tu⟩

/-- Another user's live workout. -/
def c5extraW : List WorkoutRow :=
  [{ id := "w2", user_id := "u2", date := some "2024-01-20",
     duration_minutes := some 50, deleted := false }]

/-- An exercise matching the `"Bench press"` name filter but belonging to the
other user's workout, with a far larger weight. -/
def c5extraE : List ExerciseRow :=
  [{ workout_id := some "w2", name := "Bench Press", weight := some 500,
     weight_unit := some "kg", reps := some 3, distance := none,
     distance_unit := none }]

/-- Witness for `C5_cross_user_isolation`: the other user's 500 kg bench press
does not change the requesting user's weight computation. -/
theorem C5_cross_user_isolation_witness :
    weightCalculate (extendStore c2store c5extraW c5extraE) "u1"
        "Bench press 100kg" "kg" =
      weightCalculate c2store "u1" "Bench press 100kg" "kg" :=
  (C5_cross_user_isolation c2store "u1" c5extraW c5extraE rfl (by decide)
    (by decide)).1 "Bench press 100kg" "kg"
